import Mathlib

/-!
Verification of the TOTP two-factor-authentication library (`src/index.js`)
against its natural-language specification.

The JavaScript source is embedded shallowly, with its error behavior made
explicit: fallible code returns `Except JsError`.  Two statements of the
source throw unconditionally:

* `Buffer.from(secret, 'base32')` (lines 32 and 73): Node's `Buffer` has no
  `'base32'` codec, and `Buffer.from` with an unknown encoding name throws
  `TypeError [ERR_UNKNOWN_ENCODING]` rather than decoding or defaulting
  (`bufferFromBase32`).
* `time >>= 8` (lines 37 and 70) reassigns the `const` binding `time`
  (lines 31 and 65) — `TypeError: Assignment to constant variable` — on the
  first iteration of the 8-byte packing loop (`packCounterJs`).

Consequently `generateOTP` throws on every call (its decode precedes its
packing loop) and `verifyOTP` throws on its first candidate whenever
`window ≥ 0` (its packing loop precedes its decode); only the `window < 0`
path returns normally, with `false`.  The unreachable tail of the pipeline
(HMAC-SHA1 digest, dynamic truncation, padding) is embedded in full
(`hotpTail`, over an executable SHA-1), so the error propagation is proved
over the complete translation rather than over a stub.

On the specification side, `HOTPCore.computeCode` (spec §4.2) and the RFC
4648 Base32 decoding of secrets (spec §3) are modelled from the spec's words
(`specComputeCode`, `base32Decode`) to establish the values the program was
meant to produce, e.g. the RFC 6238 known-answer vector.  The ambient clock
`Date.now()` is an explicit `nowMs` parameter (milliseconds), and
`crypto.randomInt(0, 32)` an explicit stream of indices.
-/

/-- A thrown JavaScript `TypeError`, identified by its message. -/
inductive JsError
  | typeError (msg : String)
  deriving DecidableEq

/-- The `TypeError` thrown by `Buffer.from` for the unknown encoding name
`'base32'` (Node `ERR_UNKNOWN_ENCODING`). -/
def jsUnknownEncoding : JsError := JsError.typeError "Unknown encoding: base32"

/-- The `TypeError` thrown by the compound assignment `time >>= 8` to the
`const` binding `time`. -/
def jsConstAssign : JsError := JsError.typeError "Assignment to constant variable"

/-- `Buffer.from(secret, 'base32')` (`src/index.js` lines 32 and 73): Node's
`Buffer` supports no `'base32'` codec, and `Buffer.from` with an encoding
name outside its known list throws `TypeError [ERR_UNKNOWN_ENCODING]`; the
call therefore fails for every secret, and no byte sequence is ever
produced. -/
def bufferFromBase32 (secret : String) : Except JsError (List Nat) :=
  Except.error jsUnknownEncoding

/-- The 8-byte packing loop
`for (let i = 7; i >= 0; i--) { buffer[i] = time & 0xff; time >>= 8; }` as
the source executes it: `time` is a `const` binding (lines 31 and 65), so the
first iteration's `time >>= 8` (lines 37 and 70) throws
`TypeError: Assignment to constant variable` right after writing
`buffer[7]`; the loop never completes and no buffer is ever yielded,
whatever the counter. -/
def packCounterJs (time : Int) : Except JsError (List Nat) :=
  Except.error jsConstAssign

/-- Rotate a 32-bit word left by `n` bits. -/
def rotl32 (n x : Nat) : Nat := ((x <<< n) ||| (x >>> (32 - n))) % 4294967296

/-- The SHA-1 round function `f_t` (FIPS 180-4 §4.1.1). -/
def sha1F (t b c d : Nat) : Nat :=
  if t < 20 then (b &&& c) ||| ((b ^^^ 4294967295) &&& d)
  else if t < 40 then b ^^^ c ^^^ d
  else if t < 60 then (b &&& c) ||| (b &&& d) ||| (c &&& d)
  else b ^^^ c ^^^ d

/-- The SHA-1 round constant `K_t`. -/
def sha1K (t : Nat) : Nat :=
  if t < 20 then 1518500249
  else if t < 40 then 1859775393
  else if t < 60 then 2400959708
  else 3395469782

/-- The big-endian 32-bit word at index `i` of a byte list. -/
def wordOfBytes (b : List Nat) (i : Nat) : Nat :=
  b.getD (4 * i) 0 * 16777216 + b.getD (4 * i + 1) 0 * 65536 +
    b.getD (4 * i + 2) 0 * 256 + b.getD (4 * i + 3) 0

/-- One SHA-1 compression: absorb a 64-byte block into the 5-word state. -/
def sha1Compress (h : List Nat) (block : List Nat) : List Nat :=
  let w0 := (List.range 16).map (wordOfBytes block)
  let w := (List.range 64).foldl
    (fun ws i =>
      ws ++ [rotl32 1 (ws.getD (i + 13) 0 ^^^ ws.getD (i + 8) 0 ^^^
        ws.getD (i + 2) 0 ^^^ ws.getD i 0)])
    w0
  let final := (List.range 80).foldl
    (fun st t =>
      match st with
      | (a, b, c, d, e) =>
        ((rotl32 5 a + sha1F t b c d + e + sha1K t + w.getD t 0) % 4294967296,
          a, rotl32 30 b, c, d))
    (h.getD 0 0, h.getD 1 0, h.getD 2 0, h.getD 3 0, h.getD 4 0)
  match final with
  | (a, b, c, d, e) =>
    [(h.getD 0 0 + a) % 4294967296, (h.getD 1 0 + b) % 4294967296,
      (h.getD 2 0 + c) % 4294967296, (h.getD 3 0 + d) % 4294967296,
      (h.getD 4 0 + e) % 4294967296]

/-- SHA-1 message padding: append `0x80`, then zeros to 56 mod 64, then the
bit length as 8 big-endian bytes. -/
def sha1Pad (msg : List Nat) : List Nat :=
  msg ++ 128 :: List.replicate ((64 + 55 - msg.length % 64) % 64) 0 ++
    (List.range 8).map (fun i => 8 * msg.length / 2 ^ (8 * (7 - i)) % 256)

/-- The four big-endian bytes of a 32-bit word. -/
def bytesOfWord (w : Nat) : List Nat :=
  [w >>> 24, (w >>> 16) &&& 255, (w >>> 8) &&& 255, w &&& 255]

/-- SHA-1 of a byte list, as a 20-byte list (FIPS 180-4). -/
def sha1 (msg : List Nat) : List Nat :=
  let padded := sha1Pad msg
  let blocks := (List.range (padded.length / 64)).map
    (fun i => (padded.drop (64 * i)).take 64)
  let hs := blocks.foldl sha1Compress
    [1732584193, 4023233417, 2562383102, 271733878, 3285377520]
  hs.foldl (fun acc w => acc ++ bytesOfWord w) []

/-- HMAC-SHA-1 (RFC 2104), the algorithm of
`crypto.createHmac('sha1', key).update(buffer).digest()`. -/
def hmacSha1 (key msg : List Nat) : List Nat :=
  let k0 := if 64 < key.length then sha1 key else key
  let kPad := k0 ++ List.replicate (64 - k0.length) 0
  let inner := sha1 (kPad.map (fun b => b ^^^ 54) ++ msg)
  sha1 (kPad.map (fun b => b ^^^ 92) ++ inner)

/-- JavaScript `s.padStart(n, c)`: prepend copies of `c` until length `n`
(no-op when `s` is already at least that long). -/
def jsPadStart (s : String) (n : Nat) (c : Char) : String :=
  ⟨List.replicate (n - s.length) c ++ s.data⟩

/-- The tail of the OTP pipeline downstream of the two throwing statements
(`src/index.js` lines 41–49 and 74–85): HMAC-SHA1 digest, dynamic truncation
at the low nibble of the last digest byte, reduction modulo 1 000 000,
zero-padding to six characters.  In the source this code is unreachable —
both paths throw earlier — but it is embedded in full so that the error
propagation below is proved over the complete translation. -/
def hotpTail (key buffer : List Nat) : String :=
  let hmac := hmacSha1 key buffer
  let offset := hmac.getD 19 0 &&& 15
  let otp := ((hmac.getD offset 0 &&& 127) <<< 24 |||
      (hmac.getD (offset + 1) 0 &&& 255) <<< 16 |||
      (hmac.getD (offset + 2) 0 &&& 255) <<< 8 |||
      hmac.getD (offset + 3) 0 &&& 255) % 1000000
  jsPadStart (Nat.repr otp) 6 '0'

/-- `TwoFactorAuth.generateOTP(secret, timeStep)` as the source executes it,
with the ambient clock explicit in milliseconds: the counter
`Math.floor(Date.now() / 1000 / timeStep)` is computed, then
`Buffer.from(secret, 'base32')` throws for every secret; had the decode
succeeded, the `const`-declared `time` would still make the packing loop
throw.  The `Except.ok` branches are unreachable. -/
def generateOTPJs (secret : String) (timeStep : Nat) (nowMs : Nat) : Except JsError String :=
  let time := nowMs / 1000 / timeStep
  match bufferFromBase32 secret with
  | Except.error e => Except.error e
  | Except.ok key =>
    match packCounterJs (time : Int) with
    | Except.error e => Except.error e
    | Except.ok buffer => Except.ok (hotpTail key buffer)

/-- The offsets visited by
`for (let errorWindow = -window; errorWindow <= window; errorWindow++)`,
in iteration order: `-window, -window + 1, …, window`; empty when
`window < 0`. -/
def windowOffsets (window : Int) : List Int :=
  (List.range (2 * window + 1).toNat).map (fun i : Nat => -window + (i : Int))

/-- One iteration of `verifyOTP`'s candidate loop as the source executes it:
the packing loop comes first (lines 68–71) and throws at `time >>= 8`
(`time` is `const`, line 65); the `Buffer.from(secret, 'base32')` of line 73
sits behind it and would throw as well.  No candidate code is ever
computed. -/
def verifyStepJs (secret : String) (time : Int) : Except JsError String :=
  match packCounterJs time with
  | Except.error e => Except.error e
  | Except.ok buffer =>
    match bufferFromBase32 secret with
    | Except.error e => Except.error e
    | Except.ok key => Except.ok (hotpTail key buffer)

/-- The candidate loop of `verifyOTP`: try each offset in order, return
`true` on the first candidate equal to the token, `false` after the last,
and propagate the first thrown error. -/
def verifyLoopJs (secret token : String) (base : Int) : List Int → Except JsError Bool
  | [] => Except.ok false
  | k :: ks =>
    match verifyStepJs secret (base + k) with
    | Except.error e => Except.error e
    | Except.ok code => if code == token then Except.ok true else verifyLoopJs secret token base ks

/-- `TwoFactorAuth.verifyOTP(secret, token, window)` as the source executes
it, with the clock explicit: `timeStep` is hard-coded to 30; for
`window < 0` the loop body never runs and `false` is returned; for
`window ≥ 0` the first candidate's packing loop throws. -/
def verifyOTPJs (secret token : String) (window : Int) (nowMs : Nat) : Except JsError Bool :=
  let currentTime := nowMs / 1000 / 30
  verifyLoopJs secret token (currentTime : Int) (windowOffsets window)

/-- The RFC 4648 Base32 alphabet — the `chars` constant of
`generateSecretKey` and the alphabet of the spec's secret representation. -/
def base32Alphabet : String := "ABCDEFGHIJKLMNOPQRSTUVWXYZ234567"

/-- `TwoFactorAuth.generateSecretKey(length)` with the random source explicit:
`randomInt i` stands for the `i`-th draw of `crypto.randomInt(0, chars.length)`,
and the secret is the concatenation of `chars[randomInt i]` for
`i = 0 … length - 1`. -/
def generateSecretKey (length : Nat) (randomInt : Nat → Nat) : String :=
  ⟨(List.range length).map (fun i => base32Alphabet.data.getD (randomInt i) ' ')⟩

/-- ECMAScript `encodeURIComponent`'s unescaped set: ASCII letters and digits
together with the marks `- _ . ! ~ * ' ( )`. -/
def uriUnescaped (c : Char) : Bool :=
  c.isAlphanum || c ∈ ['-', '_', '.', '!', '~', '*', Char.ofNat 39, '(', ')']

/-- The UTF-8 bytes of a character. -/
def utf8Bytes (c : Char) : List Nat :=
  let n := c.toNat
  if n < 128 then [n]
  else if n < 2048 then [192 + n / 64, 128 + n % 64]
  else if n < 65536 then [224 + n / 4096, 128 + n / 64 % 64, 128 + n % 64]
  else [240 + n / 262144, 128 + n / 4096 % 64, 128 + n / 64 % 64, 128 + n % 64]

/-- An uppercase hexadecimal digit. -/
def hexDigit (n : Nat) : Char := "0123456789ABCDEF".data.getD n '0'

/-- The `%XY` escape of one byte. -/
def percentByte (b : Nat) : String := ⟨['%', hexDigit (b / 16), hexDigit (b % 16)]⟩

/-- ECMAScript `encodeURIComponent`: characters of the unescaped set are kept,
every other character is replaced by the percent-escapes of its UTF-8
bytes. -/
def encodeURIComponent (s : String) : String :=
  s.data.foldl
    (fun acc c =>
      acc ++ if uriUnescaped c then String.singleton c
        else String.join ((utf8Bytes c).map percentByte))
    ""

/-- `TwoFactorAuth.generateOtpauthURL(secret, accountName, issuer)`: the
template string of `src/index.js` lines 103–108. -/
def generateOtpauthURL (secret accountName issuer : String) : String :=
  "otpauth://totp/" ++ encodeURIComponent issuer ++ ":" ++
    encodeURIComponent accountName ++ "?secret=" ++ secret ++ "&issuer=" ++
    encodeURIComponent issuer

/-- The 5-bit value of one Base32 character (its index in the alphabet). -/
def base32CharVal (c : Char) : Nat := base32Alphabet.data.indexOf c

/-- Bit-accumulating Base32 decoder: `acc` holds `bits` pending bits; each
character contributes 5 bits, and a byte is emitted whenever 8 bits are
available.  Trailing bits that do not fill a byte are dropped (RFC 4648,
unpadded). -/
def base32DecodeAux : List Char → Nat → Nat → List Nat
  | [], _, _ => []
  | c :: cs, acc, bits =>
    let acc2 := acc * 32 + base32CharVal c
    let bits2 := bits + 5
    if 8 ≤ bits2 then
      acc2 / 2 ^ (bits2 - 8) :: base32DecodeAux cs (acc2 % 2 ^ (bits2 - 8)) (bits2 - 8)
    else
      base32DecodeAux cs acc2 bits2

/-- Modelled from the spec: the RFC 4648 Base32 decoding of a secret string
(spec §3 — uppercase alphabet, 5 bits per character, no padding), the
external-to-bytes conversion that `HOTPCore` consumes.  `src/index.js` asks
`Buffer.from(secret, 'base32')` for this conversion, but that call throws
(`bufferFromBase32`), so a working decoder exists only on the specification
side. -/
def base32Decode (s : String) : List Nat := base32DecodeAux s.data 0 0

/-- The 8-byte big-endian encoding of a counter, most significant byte
first, as spec §4.2 step 1 prescribes. -/
def bigEndian8 (c : Nat) : List Nat :=
  (List.range 8).map (fun j => c / 2 ^ (8 * (7 - j)) % 256)

/-- Modelled from the spec: `HOTPCore.computeCode(secretBytes, counter)` of
§4.2 — the algorithm the source was meant to implement but never reaches:
8-byte big-endian counter, HMAC-SHA1 digest, `offset = digest[19] & 0x0F`,
31-bit dynamic truncation, reduction modulo 1 000 000, zero-padding to six
characters. -/
def specComputeCode (secretBytes : List Nat) (counter : Nat) : String :=
  let digest := hmacSha1 secretBytes (bigEndian8 counter)
  let offset := digest.getD 19 0 &&& 15
  let truncated := (digest.getD offset 0 &&& 127) <<< 24 |||
      (digest.getD (offset + 1) 0 &&& 255) <<< 16 |||
      (digest.getD (offset + 2) 0 &&& 255) <<< 8 |||
      digest.getD (offset + 3) 0 &&& 255
  jsPadStart (Nat.repr (truncated % 1000000)) 6 '0'

/-- The unsigned 32-bit word of a JavaScript number (`ToUint32`): the value
modulo `2^32`, sharing its two's-complement word with `ToInt32`. -/
def jsToUint32 (i : Int) : Nat := (i % 4294967296).toNat

/-- The arithmetic data flow of the packing loop body, for reference: the
bytes that `buffer[i] = time & 0xff; time >>= 8` would produce,
least-significant first, were `time` a mutable binding.  The state `u` is
the unsigned 32-bit word of `time` (JavaScript `&` and `>>` operate on
`ToInt32` values); the arithmetic shift fills the top byte with ones when
the sign bit was set.  The actual loop throws on its first iteration
(`packCounterJs`) and never produces these bytes. -/
def packAux : Nat → Nat → List Nat
  | 0, _ => []
  | n + 1, u =>
    (u &&& 255) :: packAux n ((u >>> 8) ||| (if 2147483648 ≤ u then 4278190080 else 0))

/-- The 8 bytes, in big-endian buffer order, of the hypothetical data flow of
the packing loop: even with a mutable `time`, the 32-bit operators reduce
the counter modulo `2^32` (with sign-extension), so counters from `2^31` on
would not receive their big-endian encoding. -/
def packFlow (c : Int) : List Nat := (packAux 8 (jsToUint32 c)).reverse

/-- The RFC 6238 test secret: the Base32 encoding of the ASCII bytes of
`"12345678901234567890"`. -/
def rfcSecret : String := "GEZDGNBVGY3TQOJQGEZDGNBVGY3TQOJQ"

set_option maxRecDepth 100000

/-! ### Helper lemmas -/

/-- A digit character of a value below ten satisfies `Char.isDigit`. -/
theorem digitChar_isDigit {m : Nat} (h : m < 10) : (Nat.digitChar m).isDigit := by
  interval_cases m <;> decide

/-- Every character `Nat.toDigitsCore` adds to an all-digit accumulator is a
decimal digit. -/
theorem toDigitsCore_digits : ∀ (fuel n : Nat) (ds : List Char),
    (∀ c ∈ ds, c.isDigit) → ∀ c ∈ Nat.toDigitsCore 10 fuel n ds, c.isDigit := by
  intro fuel
  induction fuel with
  | zero => intro n ds hds; simpa [Nat.toDigitsCore] using hds
  | succ fuel ih =>
    intro n ds hds
    have hd : ∀ c ∈ Nat.digitChar (n % 10) :: ds, c.isDigit := by
      intro c hc
      rcases List.mem_cons.mp hc with h | h
      · subst h; exact digitChar_isDigit (Nat.mod_lt _ (by norm_num))
      · exact hds _ h
    by_cases h0 : n / 10 = 0
    · simpa [Nat.toDigitsCore, h0] using hd
    · rw [Nat.toDigitsCore]
      simp only [if_neg h0]
      exact ih _ _ hd

/-- `Nat.toDigitsCore` appends at most one character per decimal digit of its
input. -/
theorem toDigitsCore_length : ∀ (k fuel n : Nat) (ds : List Char), n < 10 ^ (k + 1) →
    (Nat.toDigitsCore 10 fuel n ds).length ≤ ds.length + (k + 1) := by
  intro k
  induction k with
  | zero =>
    intro fuel n ds h
    cases fuel with
    | zero => simp [Nat.toDigitsCore]
    | succ f =>
      have h0 : n / 10 = 0 := Nat.div_eq_of_lt (by simpa using h)
      simp [Nat.toDigitsCore, h0]
  | succ k ih =>
    intro fuel n ds h
    cases fuel with
    | zero => simp [Nat.toDigitsCore]
    | succ f =>
      by_cases h0 : n / 10 = 0
      · simp [Nat.toDigitsCore, h0]
      · rw [Nat.toDigitsCore]
        simp only [if_neg h0]
        have hn : n / 10 < 10 ^ (k + 1) := by
          rw [Nat.div_lt_iff_lt_mul (by norm_num : (0:Nat) < 10)]
          calc n < 10 ^ (k + 1 + 1) := h
          _ = 10 ^ (k + 1) * 10 := by rw [Nat.pow_succ]
        have := ih f (n / 10) (Nat.digitChar (n % 10) :: ds) hn
        simp only [List.length_cons] at this
        omega

/-- The decimal representation of a value below one million has at most six
characters. -/
theorem repr_length_le {n : Nat} (h : n < 1000000) : (Nat.repr n).length ≤ 6 := by
  have h6 : n < 10 ^ (5 + 1) := by norm_num; omega
  have := toDigitsCore_length 5 (n + 1) n [] h6
  simpa [Nat.repr, Nat.toDigits, String.length, List.asString] using this

/-- Every character of the decimal representation of a natural number is a
digit. -/
theorem repr_digits (n : Nat) : ∀ c ∈ (Nat.repr n).data, c.isDigit := by
  have := toDigitsCore_digits (n + 1) n [] (by simp)
  simpa [Nat.repr, Nat.toDigits, List.asString] using this

/-- Length of a zero-padded six-character rendering. -/
theorem jsPadStart_length {s : String} (h : s.length ≤ 6) :
    (jsPadStart s 6 '0').length = 6 := by
  show (List.replicate (6 - s.length) '0' ++ s.data).length = 6
  have hd : s.data.length = s.length := rfl
  rw [List.length_append, List.length_replicate, hd]
  omega

/-- Zero-padding an all-digit string keeps every character a digit. -/
theorem jsPadStart_digits {s : String} (hs : ∀ c ∈ s.data, c.isDigit) :
    ∀ c ∈ (jsPadStart s 6 '0').data, c.isDigit := by
  intro c hc
  simp only [jsPadStart] at hc
  rcases List.mem_append.mp hc with h | h
  · rw [List.eq_of_mem_replicate h]; decide
  · exact hs _ h

/-- The spec's `computeCode` is the zero-padded decimal rendering of a value
below one million. -/
theorem specComputeCode_shape (key : List Nat) (c : Nat) :
    ∃ n, n < 1000000 ∧ specComputeCode key c = jsPadStart (Nat.repr n) 6 '0' :=
  ⟨_, Nat.mod_lt _ (by norm_num), rfl⟩

/-! ### Claims -/

/-- C1: Known-answer test — code bug.  The claim holds of the specified
algorithm but not of the program: `generateOTP` throws the unknown-encoding
`TypeError` at `Buffer.from(secret, 'base32')` on every call and never
returns `"287082"`, while the spec's `HOTPCore.computeCode` at counter 1
(Unix time 59 s, timeStep 30) on the decoded RFC secret yields exactly
`"287082"`, kernel-evaluated — the claim states the intent the code fails to
implement. -/
theorem claim1_kat_code_bug :
    generateOTPJs rfcSecret 30 59000 = Except.error jsUnknownEncoding ∧
    specComputeCode (base32Decode rfcSecret) 1 = "287082" ∧
    59000 / 1000 / 30 = 1 :=
  ⟨rfl, by decide, by norm_num⟩

/-- C2: Counter encoding — code bug.  No counter is ever encoded into
8 bytes: the packing loop throws the const-assignment `TypeError` at
`time >>= 8` on its first iteration, for every counter.  Moreover, even the
loop's arithmetic data flow — were `time` mutable — reduces counters through
the 32-bit operators, so `2^32` would pack to the very bytes of counter 0
instead of its big-endian encoding; the claim fails both at the error path
and at the boundary values it names. -/
theorem claim2_counter_pack_code_bug :
    (∀ c : Int, packCounterJs c = Except.error jsConstAssign) ∧
    packFlow 4294967296 = packFlow 0 ∧
    packFlow 4294967296 ≠ bigEndian8 4294967296 :=
  ⟨fun _ => rfl, by decide, by decide⟩

/-- C3 counterexample: no argument is validated.  `generateSecretKey(0)`
returns the empty string instead of failing with `InvalidArgument`;
`verifyOTP` with the negative window `-1` returns `false` instead of
failing; and `generateOTP` with `timeStep = 0` fails with the
unknown-encoding `TypeError`, not with `InvalidArgument`. -/
theorem claim3_counterexample :
    generateSecretKey 0 (fun _ => 0) = "" ∧
    verifyOTPJs "GEZDGNBV" "000000" (-1) 0 = Except.ok false ∧
    generateOTPJs "GEZDGNBV" 0 0 = Except.error jsUnknownEncoding :=
  ⟨rfl, rfl, rfl⟩

/-- C3, amended: the code performs no argument validation and no
`InvalidArgument` error is ever surfaced: `generateSecretKey` with length 0
returns the empty string, `verifyOTP` with a negative window performs zero
iterations and returns `false`, and `generateOTP` with `timeStep = 0` raises
no `InvalidArgument` — it fails with the same unknown-encoding `TypeError`
as every other call. -/
theorem claim3_no_validation (randomInt : Nat → Nat) (s token : String) (nowMs : Nat) :
    generateSecretKey 0 randomInt = "" ∧
    verifyOTPJs s token (-1) nowMs = Except.ok false ∧
    generateOTPJs s 0 nowMs = Except.error jsUnknownEncoding :=
  ⟨rfl, rfl, rfl⟩

/-- C4: Round-trip — code bug.  The round-trip can never return `true`:
`generateOTP` throws on every call (so there is no token to verify), and
`verifyOTP` with window 0 throws the const-assignment `TypeError` on its
single candidate for every secret, token and clock reading. -/
theorem claim4_round_trip_code_bug :
    (∀ (s : String) (timeStep nowMs : Nat),
      generateOTPJs s timeStep nowMs = Except.error jsUnknownEncoding) ∧
    (∀ (s token : String) (nowMs : Nat),
      verifyOTPJs s token 0 nowMs = Except.error jsConstAssign) :=
  ⟨fun _ _ _ => rfl, fun _ _ _ => rfl⟩

/-- C5: Window correctness — code bug.  For every window `≥ 0` the loop
throws the const-assignment `TypeError` while packing its first candidate
counter, before any code is computed or compared; `verifyOTP` never returns
`true`, so the claimed iterate-and-compare behavior never takes place. -/
theorem claim5_window_code_bug (s token : String) (w : Int) (nowMs : Nat) (hw : 0 ≤ w) :
    verifyOTPJs s token w nowMs = Except.error jsConstAssign := by
  show verifyLoopJs s token ((nowMs / 1000 / 30 : Nat) : Int) (windowOffsets w) =
    Except.error jsConstAssign
  have h1 : (2 * w + 1).toNat = (2 * w).toNat + 1 := by omega
  unfold windowOffsets
  rw [h1, List.range_succ_eq_map, List.map_cons]
  rfl

/-- C5 witness: at time 59 s, even the correct token `"287082"` with
window 1 produces the `TypeError`, not a verification result. -/
theorem claim5_witness :
    verifyOTPJs rfcSecret "287082" 1 59000 = Except.error jsConstAssign :=
  claim5_window_code_bug rfcSecret "287082" 1 59000 (by norm_num)

/-- C6: Output format — code bug.  `generateOTP` never returns any string:
it throws before completing the pipeline, for every secret, time step and
clock reading.  The specified algorithm does satisfy the claimed format —
`HOTPCore.computeCode` always yields the zero-padded decimal rendering of a
value below one million, exactly 6 characters, all digits — so the claim
states the intent. -/
theorem claim6_format_code_bug :
    (∀ (s : String) (timeStep nowMs : Nat),
      generateOTPJs s timeStep nowMs = Except.error jsUnknownEncoding) ∧
    (∀ (key : List Nat) (counter : Nat),
      (specComputeCode key counter).length = 6 ∧
      (∀ ch ∈ (specComputeCode key counter).data, ch.isDigit) ∧
      ∃ n : Nat, n < 1000000 ∧
        specComputeCode key counter = jsPadStart (Nat.repr n) 6 '0') := by
  refine ⟨fun _ _ _ => rfl, fun key counter => ⟨?_, ?_, specComputeCode_shape key counter⟩⟩
  · obtain ⟨n, hn, he⟩ := specComputeCode_shape key counter
    rw [he]
    exact jsPadStart_length (repr_length_le hn)
  · obtain ⟨n, hn, he⟩ := specComputeCode_shape key counter
    rw [he]
    exact jsPadStart_digits (repr_digits n)

/-- C7: Malformed-token tolerance — code bug.  The claim says `verifyOTP`
never throws for a malformed token and simply returns `false`; in fact it
throws the const-assignment `TypeError` before any token comparison for
every token whatsoever — malformed or well-formed — whenever the window is
the default 1 (or any non-negative value). -/
theorem claim7_malformed_token_code_bug :
    (∀ token : String, verifyOTPJs rfcSecret token 1 59000 = Except.error jsConstAssign) ∧
    verifyOTPJs rfcSecret "12345" 1 59000 = Except.error jsConstAssign :=
  ⟨fun _ => rfl, rfl⟩

/-- C8: Alphabet compliance.  Whatever `length` is requested, and for any
draws of `crypto.randomInt(0, 32)` (which by contract are below 32), the
generated secret has exactly `length` characters, all from
`ABCDEFGHIJKLMNOPQRSTUVWXYZ234567`. -/
theorem claim8_alphabet_compliance (n : Nat) (randomInt : Nat → Nat)
    (h : ∀ i, randomInt i < 32) :
    (generateSecretKey n randomInt).length = n ∧
    ∀ c ∈ (generateSecretKey n randomInt).data, c ∈ base32Alphabet.data := by
  constructor
  · show ((List.range n).map _).length = n
    rw [List.length_map, List.length_range]
  · intro c hc
    obtain ⟨i, hi, rfl⟩ := List.mem_map.mp hc
    have hlt : randomInt i < base32Alphabet.data.length := h i
    simp only [List.getD_eq_getElem?_getD, List.getElem?_eq_getElem hlt, Option.getD_some]
    exact List.getElem_mem hlt

/-- C8 witness: four draws `0, 7, 14, 21` give a 4-character secret over the
alphabet. -/
theorem claim8_witness :
    (generateSecretKey 4 (fun i => 7 * i % 32)).length = 4 ∧
    ∀ c ∈ (generateSecretKey 4 (fun i => 7 * i % 32)).data, c ∈ base32Alphabet.data :=
  claim8_alphabet_compliance 4 (fun i => 7 * i % 32)
    (fun i => Nat.mod_lt _ (by norm_num))

/-- C9: Provisioning URI format.  `generateOtpauthURL` returns exactly
`otpauth://totp/{enc issuer}:{enc accountName}?secret={secret}&issuer={enc issuer}`
with `enc` the ECMAScript `encodeURIComponent` percent-encoding and the
secret inserted verbatim; in the concrete instance the space becomes `%20`
and the `@` becomes `%40`. -/
theorem claim9_otpauth_url :
    (∀ secret accountName issuer : String,
      generateOtpauthURL secret accountName issuer =
        "otpauth://totp/" ++ encodeURIComponent issuer ++ ":" ++
          encodeURIComponent accountName ++ "?secret=" ++ secret ++
          "&issuer=" ++ encodeURIComponent issuer) ∧
    generateOtpauthURL "NBSWY3DPEB3W64TMMQ" "user@example.com" "My App" =
      "otpauth://totp/My%20App:user%40example.com?secret=NBSWY3DPEB3W64TMMQ&issuer=My%20App" :=
  ⟨fun _ _ _ => rfl, by decide⟩

/-- C10: Duplicated code paths — code bug.  Neither code path computes any
code string in the source: `generateOTP` throws the unknown-encoding
`TypeError` at `Buffer.from` (which precedes its packing loop), while
`verifyOTP`'s loop body throws the const-assignment `TypeError` at
`time >>= 8` (which precedes its `Buffer.from`).  The two supposedly
equivalent paths even fail with different errors, and the claimed
token-matching equivalence never materializes. -/
theorem claim10_paths_code_bug :
    (∀ (s : String) (timeStep nowMs : Nat),
      generateOTPJs s timeStep nowMs = Except.error jsUnknownEncoding) ∧
    (∀ (s : String) (t : Int), verifyStepJs s t = Except.error jsConstAssign) ∧
    jsUnknownEncoding ≠ jsConstAssign :=
  ⟨fun _ _ _ => rfl, fun _ _ => rfl, by decide⟩
